import Mathlib

/-!
Verification of the scraper-mcp batch fetch-and-transform core.

Shallow embedding of the relevant source functions:
  - cache_manager.py   : get_ttl_for_url, generate_cache_key
  - tools/service.py   : clean_metadata, scrape_single_url_safe (result and
                         recorded metrics event), batch_scrape_urls, and the
                         metadata step of scrape_single_url_markdown_safe
  - metrics.py         : ServerMetrics.record_request
  - providers/requests_provider.py : the retry loop of RequestsProvider.scrape
  - utils.py           : filter_html_by_selector

External collaborators (BeautifulSoup parsing, the soupsieve CSS engine, the
requests transport, the diskcache store, SHA-256) are modelled as explicit
parameters or as small executable models noted in the doc comments.
-/

/-! ## String helpers (Python str.lower and the "in" substring test) -/

/-- Model of Python str.lower applied to a URL, at the character-list level
(ASCII lowering; Char.toLower mirrors CPython for the ASCII range used by
the TTL patterns). -/
def pyLower (s : String) : List Char :=
  s.toList.map Char.toLower

/-- Model of the Python substring test (needle in hay). -/
def containsSub (hay needle : List Char) : Bool :=
  match hay with
  | [] => needle.isEmpty
  | _ :: t => needle.isPrefixOf hay || containsSub t needle

/-! ## cache_manager.py : TTL policy (lines 124-144) -/

def DEFAULT_TTL : Nat := 3600

def STATIC_ASSET_TTL : Nat := 86400

def REALTIME_DATA_TTL : Nat := 300

/-- CacheManager.get_ttl_for_url from cache_manager.py: lowercase the URL,
return STATIC_ASSET_TTL if any static pattern occurs as a substring, else
REALTIME_DATA_TTL if any realtime pattern occurs, else DEFAULT_TTL. -/
def get_ttl_for_url (url : String) : Nat :=
  let url_lower := pyLower url
  if ["static", "cdn", "cloudfront"].any (fun p => containsSub url_lower p.toList) then
    STATIC_ASSET_TTL
  else if ["api", "realtime", "live"].any (fun p => containsSub url_lower p.toList) then
    REALTIME_DATA_TTL
  else
    DEFAULT_TTL

/-! ## cache_manager.py : cache key generation (lines 104-122)

generate_cache_key builds key_data = a dict with keys "url" and "headers",
serializes it with json.dumps(key_data, sort_keys=True) and returns the
SHA-256 hexdigest of that string.  We model the canonical serialization
explicitly; the hexdigest is a pure function of the serialized string, so
every equality between keys is decided by equality of the serializations,
which is what we produce here.  json.dumps(..., sort_keys=True) emits the
entries of each mapping sorted by key; a Python dict has pairwise distinct
keys, so sorting pairs lexicographically by (key, value) produces the same
sequence as sorting by key alone. -/

/-- Lexicographic (code-point) comparison of two strings as character
lists, the order in which json.dumps(..., sort_keys=True) compares keys. -/
def leChars : List Char → List Char → Bool
  | [], _ => true
  | _ :: _, [] => false
  | a :: as, b :: bs => a < b || (a == b && leChars as bs)

def pairLeB (a b : String × String) : Bool :=
  if a.1 == b.1 then leChars a.2.toList b.2.toList else leChars a.1.toList b.1.toList

/-- Order on header (name, value) pairs: by name, ties broken by value. -/
def pairLe (a b : String × String) : Prop := pairLeB a b = true

instance : DecidableRel pairLe := fun a b => by
  unfold pairLe
  infer_instance

/-- The key-sorted header sequence produced by json.dumps(..., sort_keys=True). -/
def sortHeaders (hs : List (String × String)) : List (String × String) :=
  List.insertionSort pairLe hs

def jsonStr (s : String) : String :=
  "\"" ++ s ++ "\""

def serializeHeaderPair (p : String × String) : String :=
  jsonStr p.1 ++ ": " ++ jsonStr p.2

/-- CacheManager.generate_cache_key from cache_manager.py, modelled as the
canonical sort_keys serialization of key_data (the SHA-256 hexdigest applied
on top in the source is a pure function of this string). -/
def generate_cache_key (url : String) (headers : List (String × String)) : String :=
  "\x7b" ++ jsonStr "headers" ++ ": \x7b"
    ++ String.intercalate ", " ((sortHeaders headers).map serializeHeaderPair)
    ++ "\x7d, " ++ jsonStr "url" ++ ": " ++ jsonStr url ++ "\x7d"

/-! ## Metadata dictionaries

The per-result metadata dict of the source is modelled as a record of
optional fields: a field holding none corresponds to the key being absent
from the dict.  The fields are exactly the keys read or written by
clean_metadata in tools/service.py, plus encoding, which the provider puts
into the dict and clean_metadata drops. -/

structure Md where
  elapsed_ms : Option ℚ := none
  attempts : Option Nat := none
  retries : Option Nat := none
  from_cache : Option Bool := none
  proxy_used : Option Bool := none
  proxy_config : Option String := none
  css_selector_applied : Option String := none
  elements_matched : Option Nat := none
  page_metadata : Option (List (String × String)) := none
  headers : Option (List (String × String)) := none
  encoding : Option String := none
deriving DecidableEq, Repr

/-- Python truthiness of the optional css_selector string argument
(None and the empty string are falsy). -/
def strTruthy : Option String → Bool
  | none => false
  | some s => !(s == "")

/-- clean_metadata from tools/service.py lines 27-78.  Builds a fresh dict:
elapsed_ms kept whenever present; attempts kept only when
metadata.get("attempts", 1) > 1; retries only when metadata.get("retries", 0)
> 0; from_cache set to True only when metadata.get("from_cache") is truthy;
proxy_used/proxy_config only when proxy_used is truthy; the selector fields
only when the css_selector argument is truthy (elements_matched additionally
requires the argument to be not None); page_metadata and headers copied
whenever present in the input dict. -/
def clean_metadata (metadata : Md) (css_selector : Option String)
    (elements_matched : Option Nat) : Md :=
  { elapsed_ms := metadata.elapsed_ms
    attempts := if metadata.attempts.getD 1 > 1 then some (metadata.attempts.getD 1) else none
    retries := if metadata.retries.getD 0 > 0 then some (metadata.retries.getD 0) else none
    from_cache := if metadata.from_cache.getD false then some true else none
    proxy_used := if metadata.proxy_used.getD false then some true else none
    proxy_config := if metadata.proxy_used.getD false then metadata.proxy_config else none
    css_selector_applied := if strTruthy css_selector then css_selector else none
    elements_matched :=
      if strTruthy css_selector && elements_matched.isSome then elements_matched else none
    page_metadata := metadata.page_metadata
    headers := metadata.headers
    encoding := none }

/-- The metadata processing step of scrape_single_url_markdown_safe
(tools/service.py lines 243-250): merge page_metadata into the provider
metadata, pop headers unless include_headers, then clean_metadata. -/
def markdown_metadata_step (raw : Md) (page_md : List (String × String))
    (include_headers : Bool) (css_selector : Option String)
    (elements_matched : Option Nat) : Md :=
  let m1 : Md := { raw with page_metadata := some page_md }
  let m2 : Md := if include_headers then m1 else { m1 with headers := none }
  clean_metadata m2 css_selector elements_matched

/-! ## metrics.py : ServerMetrics (lines 12-83)

RequestMetrics drops the wall-clock timestamp field (real time, outside the
embedding); every other recorded field is kept.  The two deques with maxlen
50 and 20 are modelled as lists holding the newest element last, with
appendBounded performing the append-then-evict-oldest step of
collections.deque.append. -/

structure RequestMetrics where
  url : String
  success : Bool
  status_code : Option Int := none
  elapsed_ms : Option ℚ := none
  attempts : Nat := 1
  error : Option String := none
deriving DecidableEq, Repr

/-- deque(maxlen := cap).append: append on the right, evicting from the left
whenever the capacity is exceeded. -/
def appendBounded (cap : Nat) (xs : List RequestMetrics) (x : RequestMetrics) :
    List RequestMetrics :=
  let ys := xs ++ [x]
  ys.drop (ys.length - cap)

/-- Keep only the last cap elements of a list (the fixed point shape of
repeated appendBounded). -/
def dropToCap (cap : Nat) (xs : List RequestMetrics) : List RequestMetrics :=
  xs.drop (xs.length - cap)

structure ServerMetrics where
  total_requests : Nat := 0
  successful_requests : Nat := 0
  failed_requests : Nat := 0
  total_retries : Nat := 0
  recent_requests : List RequestMetrics := []
  recent_errors : List RequestMetrics := []
deriving DecidableEq, Repr

/-- The process-start state of the global metrics instance. -/
def initialMetrics : ServerMetrics := {}

/-- ServerMetrics.record_request from metrics.py lines 37-83: increment the
total counter, then the success or failure counter; add attempts - 1 to
total_retries when attempts > 1; append the record to recent_requests
(capacity 50); when the request failed, also append it to recent_errors
(capacity 20). -/
def ServerMetrics.record_request (m : ServerMetrics) (ev : RequestMetrics) :
    ServerMetrics :=
  { total_requests := m.total_requests + 1
    successful_requests :=
      if ev.success then m.successful_requests + 1 else m.successful_requests
    failed_requests :=
      if ev.success then m.failed_requests else m.failed_requests + 1
    total_retries :=
      if ev.attempts > 1 then m.total_retries + (ev.attempts - 1) else m.total_retries
    recent_requests := appendBounded 50 m.recent_requests ev
    recent_errors :=
      if ev.success then m.recent_errors else appendBounded 20 m.recent_errors ev }

/-! ## Exceptions and provider results -/

/-- A raised Python exception as observed by the per-URL error boundary:
its class name and its message, which the boundary formats as
"<kind>: <msg>". -/
structure PyErr where
  kind : String
  msg : String
deriving DecidableEq, Repr

def PyErr.format (e : PyErr) : String :=
  e.kind ++ ": " ++ e.msg

/-- ScrapeResult from providers/base.py. -/
structure ScrapeResult where
  url : String
  content : String
  status_code : Int
  content_type : Option String
  metadata : Md
deriving DecidableEq, Repr

deriving instance DecidableEq for Except

/-! ## providers/requests_provider.py : retry loop of RequestsProvider.scrape
(lines 175-248, the cache-miss path)

One network attempt (session.get plus raise_for_status plus building the
response fields) is an external effect; it is modelled as a function from
the 0-indexed attempt number to either a raised retryable exception
(requests.Timeout / ConnectionError / HTTPError) or a ScrapeResult whose
metadata carries the response-derived fields.  The loop fills in the
attempts / retries / from_cache metadata exactly as the source does, and the
model additionally returns the list of backoff sleeps taken on the
successful run, each computed as retry_delay * 2 ^ (attempt - 1) with
attempt the 1-indexed count of failures so far; the error outcome carries
the total number of attempts taken. -/

/-- The metadata fields written by the success path of the retry loop
(requests_provider.py lines 192-199): attempts = attempt + 1,
retries = attempt, from_cache = False. -/
def withRetryMeta (r : ScrapeResult) (attempts retries : Nat) : ScrapeResult :=
  { r with metadata :=
      { r.metadata with
          attempts := some attempts
          retries := some retries
          from_cache := some false } }

def scrapeRetryLoopGo (res : Nat → Except PyErr ScrapeResult) (retry_delay : ℚ)
    (max_retries : Nat) (attempt : Nat) (fuel : Nat) :
    Except (PyErr × Nat) (ScrapeResult × List ℚ) :=
  match res attempt with
  | .ok r => .ok (withRetryMeta r (attempt + 1) attempt, [])
  | .error e =>
      if attempt + 1 > max_retries then
        .error (e, attempt + 1)
      else
        match fuel with
        | 0 => .error (e, attempt + 1)
        | f + 1 =>
            match scrapeRetryLoopGo res retry_delay max_retries (attempt + 1) f with
            | .ok (r, sleeps) => .ok (r, retry_delay * 2 ^ (attempt + 1 - 1) :: sleeps)
            | .error err => .error err

/-- The retry loop entered with attempt = 0; the while condition
attempt <= max_retries admits at most max_retries + 1 iterations, which is
the fuel supplied here. -/
def scrapeRetryLoop (res : Nat → Except PyErr ScrapeResult) (retry_delay : ℚ)
    (max_retries : Nat) : Except (PyErr × Nat) (ScrapeResult × List ℚ) :=
  scrapeRetryLoopGo res retry_delay max_retries 0 (max_retries + 1)

/-! ## utils.py : filter_html_by_selector (lines 117-168)

The source parses the HTML with BeautifulSoup and delegates matching to
soup.select, then joins str(element) for each matched element with a
newline, returning ("", 0) when nothing matched, and converts any exception
raised by parsing or selection into ValueError("Invalid CSS selector ...").
BeautifulSoup and the soupsieve CSS engine are external collaborators, so
the document, the selector language, and the matcher are modelled from the
spec as noted on each definition below. -/

/-- Modelled from the spec: the parsed HTML document of the external
BeautifulSoup collaborator, as a tree of elements (tag, class list,
children) and text nodes. -/
inductive HtmlTree where
  | text (s : String)
  | elem (tag : String) (classes : List String) (kids : List HtmlTree)

/-- Modelled from the spec: a parsed simple CSS selector of the external
soupsieve collaborator - a tag-name selector or a class selector; a
selector string is a comma-separated group of these. -/
inductive SimpleSel where
  | tagSel (t : String)
  | classSel (c : String)
deriving DecidableEq, Repr

def selMatches (s : SimpleSel) (tag : String) (classes : List String) : Bool :=
  match s with
  | .tagSel t => tag == t
  | .classSel c => classes.contains c

mutual

/-- Modelled from the spec: soup.select collecting every element matched by
any selector of the group, in document order (preorder: an element precedes
its descendants). -/
def collect (sels : List SimpleSel) : HtmlTree → List HtmlTree
  | .text _ => []
  | .elem tag classes kids =>
      (if sels.any (fun s => selMatches s tag classes) then
        [HtmlTree.elem tag classes kids]
      else []) ++ collectList sels kids

def collectList (sels : List SimpleSel) : List HtmlTree → List HtmlTree
  | [] => []
  | t :: ts => collect sels t ++ collectList sels ts

end

mutual

/-- Modelled from the spec: str(element) - serialize a matched element with
its own subtree structure intact. -/
def render : HtmlTree → String
  | .text s => s
  | .elem tag _ kids => "<" ++ tag ++ ">" ++ renderList kids ++ "</" ++ tag ++ ">"

def renderList : List HtmlTree → String
  | [] => ""
  | t :: ts => render t ++ renderList ts

end

def trimSpaces (cs : List Char) : List Char :=
  ((cs.dropWhile (· = ' ')).reverse.dropWhile (· = ' ')).reverse

def splitCommaGo : List Char → List Char → List (List Char)
  | [], acc => [acc.reverse]
  | c :: rest, acc =>
      if c = ',' then acc.reverse :: splitCommaGo rest []
      else splitCommaGo rest (c :: acc)

def isSelChar (c : Char) : Bool :=
  c.isAlphanum || c = '-' || c = '_'

/-- Modelled from the spec: parsing one simple selector token; an empty
token, a bare dot, or a token with characters outside the simple-selector
alphabet is syntactically invalid. -/
def parseSimple (cs : List Char) : Option SimpleSel :=
  match cs with
  | [] => none
  | '.' :: rest =>
      if rest.isEmpty || !rest.all isSelChar then none
      else some (.classSel (String.mk rest))
  | _ =>
      if cs.all isSelChar then some (.tagSel (String.mk cs)) else none

def parseSimpleList : List (List Char) → Option (List SimpleSel)
  | [] => some []
  | t :: ts =>
      match parseSimple t, parseSimpleList ts with
      | some s, some ss => some (s :: ss)
      | _, _ => none

/-- Modelled from the spec: the soupsieve selector compiler - split the
selector string on commas, trim, parse each simple selector; any invalid
token makes the whole selector syntactically invalid. -/
def parseSelector (css : String) : Option (List SimpleSel) :=
  parseSimpleList ((splitCommaGo css.toList []).map trimSpaces)

/-- filter_html_by_selector from utils.py lines 117-168, over the parsed
document: an invalid selector raises ValueError; zero matches return
("", 0); otherwise the matched subtrees are serialized and joined with a
newline, paired with the match count. -/
def filter_html_by_selector (doc : HtmlTree) (css_selector : String) :
    Except String (String × Nat) :=
  match parseSelector css_selector with
  | none => .error ("Invalid CSS selector " ++ jsonStr css_selector)
  | some sels =>
      let elements := collect sels doc
      if elements.isEmpty then .ok ("", 0)
      else .ok (String.intercalate "\n" (elements.map render), elements.length)

/-! ## tools/service.py : per-URL pipeline and batch orchestration

models/scrape.py is not under src/ (only its sibling links.py is), so the
three response shapes below are Modelled from the spec: PerURLResult and
BatchResult of spec section 3, whose fields match the construction sites in
tools/service.py and the parallel pydantic models in models/links.py. -/

/-- Modelled from the spec: ScrapeResponse - the data payload of one
successful scrape (models/scrape.py is not under src/). -/
structure ScrapeResponse where
  content : String
  status_code : Int
  content_type : Option String
  metadata : Md
deriving DecidableEq, Repr

/-- Modelled from the spec: ScrapeResultItem / PerURLResult (models/scrape.py
is not under src/). -/
structure ScrapeResultItem where
  url : String
  success : Bool
  data : Option ScrapeResponse
  error : Option String
deriving DecidableEq, Repr

/-- Modelled from the spec: BatchScrapeResponse / BatchResult
(models/scrape.py is not under src/). -/
structure BatchScrapeResponse where
  total : Nat
  successful : Nat
  failed : Nat
  results : List ScrapeResultItem
deriving DecidableEq, Repr

/-- The selector-filter step of the per-URL pipeline (tools/service.py lines
109-112): when css_selector is truthy, filter the content and record the
match count, converting a selector failure into the raised ValueError;
otherwise pass the content through with elements_matched = None.  The
external BeautifulSoup parse of the content string is the parse parameter. -/
def applySelector (parse : String → HtmlTree) (css_selector : Option String)
    (content : String) : Except PyErr (String × Option Nat) :=
  if strTruthy css_selector then
    match filter_html_by_selector (parse content) (css_selector.getD "") with
    | .error msg => .error ⟨"ValueError", msg⟩
    | .ok (filtered, n) => .ok (filtered, some n)
  else
    .ok (content, none)

/-- scrape_single_url_safe from tools/service.py lines 81-155, returned
item.  The awaited provider.scrape call is the env parameter: for each URL
it either returns a ScrapeResult or raises.  On any exception the item is
url / success=false / data=None / error="<ErrorKind>: <message>"; on
success the selector filter, the headers pop and clean_metadata are applied
and the item carries the data payload. -/
def scrapeItem (env : String → Except PyErr ScrapeResult)
    (parse : String → HtmlTree) (css_selector : Option String)
    (include_headers : Bool) (url : String) : ScrapeResultItem :=
  match env url with
  | .error e => ⟨url, false, none, some e.format⟩
  | .ok r =>
      match applySelector parse css_selector r.content with
      | .error e => ⟨url, false, none, some e.format⟩
      | .ok (content, elements_matched) =>
          let md := if include_headers then r.metadata else { r.metadata with headers := none }
          ⟨url, true,
            some ⟨content, r.status_code, r.content_type,
              clean_metadata md css_selector elements_matched⟩,
            none⟩

/-- The metrics event recorded by scrape_single_url_safe (tools/service.py
lines 122-128 on success, 144-148 on failure): a success records the status
code, the elapsed_ms and attempts read from the provider metadata; a
failure records only url / success=False / error, leaving attempts at its
default 1. -/
def scrapeEvent (env : String → Except PyErr ScrapeResult)
    (parse : String → HtmlTree) (css_selector : Option String)
    (url : String) : RequestMetrics :=
  match env url with
  | .error e => { url := url, success := false, error := some e.format }
  | .ok r =>
      match applySelector parse css_selector r.content with
      | .error e => { url := url, success := false, error := some e.format }
      | .ok _ =>
          { url := url, success := true, status_code := some r.status_code,
            elapsed_ms := r.metadata.elapsed_ms,
            attempts := r.metadata.attempts.getD 1 }

/-- batch_scrape_urls from tools/service.py lines 158-200: one task per URL,
asyncio.gather collects the task results in task order, successful counts
the items with success, failed is the rest; the global metrics instance
receives one record_request per URL.  The returned pair is (response,
metrics state after the batch). -/
def batch_scrape_urls (env : String → Except PyErr ScrapeResult)
    (parse : String → HtmlTree) (css_selector : Option String)
    (include_headers : Bool) (urls : List String) (m : ServerMetrics) :
    BatchScrapeResponse × ServerMetrics :=
  let results := urls.map (scrapeItem env parse css_selector include_headers)
  let successful := results.countP (fun r => r.success)
  let failed := results.length - successful
  (⟨results.length, successful, failed, results⟩,
    urls.foldl (fun mm u => mm.record_request (scrapeEvent env parse css_selector u)) m)

/-! ## Completion-order model of asyncio.gather

asyncio.gather awaits all tasks and returns their results in the order the
awaitables were passed, whatever order the tasks complete in.  To state
that positional guarantee, fillSlots processes an arbitrary completion
order (a list of task indices) and writes each completed task result into
its own slot; slot contents are then independent of the completion order. -/

def fillSlots (run : String → ScrapeResultItem) (tasks : List String) :
    List Nat → (Nat → Option ScrapeResultItem) → Nat → Option ScrapeResultItem
  | [], acc => acc
  | i :: rest, acc =>
      fillSlots run tasks rest
        (fun j => if j = i then (tasks.get? i).map run else acc j)

/-! ## Sample concrete inputs used by the witness theorems -/

def sampleParse : String → HtmlTree := fun _ => .text ""

def sampleEnv : String → Except PyErr ScrapeResult := fun u =>
  if u = "https://a" then
    .ok ⟨"https://a", "<p>ok</p>", 200, some "text/html", {}⟩
  else
    .error ⟨"ConnectionError", "boom"⟩

def sampleDoc : HtmlTree :=
  .elem "html" []
    [.elem "body" ["main"]
      [.elem "img" [] [],
       .elem "div" [] [.elem "video" [] [], .text "hi"]]]

/-! ## Proof development -/

theorem leChars_total : ∀ x y : List Char, leChars x y = true ∨ leChars y x = true := by
  intro x
  induction x with
  | nil => intro y; left; rfl
  | cons a as ih =>
    intro y
    cases y with
    | nil => right; rfl
    | cons b bs =>
      rcases lt_trichotomy a b with h | h | h
      · left; simp [leChars, h]
      · subst h
        rcases ih bs with h2 | h2
        · left; simp [leChars, h2]
        · right; simp [leChars, h2]
      · right; simp [leChars, h]

theorem leChars_antisymm :
    ∀ x y : List Char, leChars x y = true → leChars y x = true → x = y := by
  intro x
  induction x with
  | nil =>
    intro y _ hyx
    cases y with
    | nil => rfl
    | cons b bs => simp [leChars] at hyx
  | cons a as ih =>
    intro y hxy hyx
    cases y with
    | nil => simp [leChars] at hxy
    | cons b bs =>
      simp only [leChars, Bool.or_eq_true, Bool.and_eq_true, beq_iff_eq,
        decide_eq_true_eq] at hxy hyx
      rcases hxy with h | ⟨he, hr⟩
      · rcases hyx with h2 | ⟨he2, _⟩
        · exact absurd h2 (lt_asymm h)
        · exact absurd (he2 ▸ h) (lt_irrefl _)
      · rcases hyx with h2 | ⟨_, hr2⟩
        · exact absurd (he ▸ h2) (lt_irrefl _)
        · rw [he, ih bs hr hr2]

theorem leChars_trans :
    ∀ x y z : List Char, leChars x y = true → leChars y z = true → leChars x z = true := by
  intro x
  induction x with
  | nil => intro y z _ _; rfl
  | cons a as ih =>
    intro y z hxy hyz
    cases y with
    | nil => simp [leChars] at hxy
    | cons b bs =>
      cases z with
      | nil => simp [leChars] at hyz
      | cons c cs =>
        simp only [leChars, Bool.or_eq_true, Bool.and_eq_true, beq_iff_eq,
          decide_eq_true_eq] at hxy hyz ⊢
        rcases hxy with h | ⟨he, hr⟩
        · rcases hyz with h2 | ⟨he2, _⟩
          · exact Or.inl (lt_trans h h2)
          · exact Or.inl (he2 ▸ h)
        · rcases hyz with h2 | ⟨he2, hr2⟩
          · exact Or.inl (he ▸ h2)
          · exact Or.inr ⟨he.trans he2, ih bs cs hr hr2⟩

theorem toList_inj {s t : String} (h : s.toList = t.toList) : s = t :=
  congrArg String.mk h

theorem pairLe_iff (a b : String × String) :
    pairLe a b ↔
      (if a.1 = b.1 then leChars a.2.toList b.2.toList = true
       else leChars a.1.toList b.1.toList = true) := by
  unfold pairLe pairLeB
  by_cases h : a.1 = b.1 <;> simp [h]

instance : IsTotal (String × String) pairLe := by
  constructor
  intro a b
  rw [pairLe_iff, pairLe_iff]
  by_cases h : a.1 = b.1
  · rw [if_pos h, if_pos h.symm]
    exact leChars_total _ _
  · rw [if_neg h, if_neg (fun hh => h hh.symm)]
    exact leChars_total _ _

instance : IsTrans (String × String) pairLe := by
  constructor
  intro a b c hab hbc
  rw [pairLe_iff] at hab hbc ⊢
  by_cases h1 : a.1 = b.1 <;> by_cases h2 : b.1 = c.1
  · rw [if_pos h1] at hab
    rw [if_pos h2] at hbc
    rw [if_pos (h1.trans h2)]
    exact leChars_trans _ _ _ hab hbc
  · rw [if_pos h1] at hab
    rw [if_neg h2] at hbc
    rw [if_neg (fun hh => h2 (h1.symm.trans hh))]
    rw [h1]
    exact hbc
  · rw [if_neg h1] at hab
    rw [if_pos h2] at hbc
    rw [if_neg (fun hh => h1 (hh.trans h2.symm))]
    rw [← h2]
    exact hab
  · rw [if_neg h1] at hab
    rw [if_neg h2] at hbc
    by_cases h3 : a.1 = c.1
    · rw [← h3] at hbc
      exact absurd (toList_inj (leChars_antisymm _ _ hab hbc)) h1
    · rw [if_neg h3]
      exact leChars_trans _ _ _ hab hbc

instance : IsAntisymm (String × String) pairLe := by
  constructor
  intro a b hab hba
  rw [pairLe_iff] at hab hba
  by_cases h : a.1 = b.1
  · rw [if_pos h] at hab
    rw [if_pos h.symm] at hba
    have hv := toList_inj (leChars_antisymm _ _ hab hba)
    obtain ⟨a1, a2⟩ := a
    obtain ⟨b1, b2⟩ := b
    simp only at h hv
    rw [h, hv]
  · rw [if_neg h] at hab
    rw [if_neg (fun hh => h hh.symm)] at hba
    exact absurd (toList_inj (leChars_antisymm _ _ hab hba)) h

/-- Claim C4: get_ttl_for_url returns 86400 when the lowercased URL contains
a static signal (static / cdn / cloudfront), otherwise 300 when it contains
a realtime signal (api / realtime / live), otherwise 3600; the static check
takes priority and matching is case-insensitive substring matching; and the
three concrete URLs of the spec evaluate as stated. -/
theorem get_ttl_for_url_spec (url : String) :
    ((["static", "cdn", "cloudfront"].any fun p => containsSub (pyLower url) p.toList) = true →
      get_ttl_for_url url = 86400)
    ∧ ((["static", "cdn", "cloudfront"].any fun p => containsSub (pyLower url) p.toList) = false →
        (["api", "realtime", "live"].any fun p => containsSub (pyLower url) p.toList) = true →
        get_ttl_for_url url = 300)
    ∧ ((["static", "cdn", "cloudfront"].any fun p => containsSub (pyLower url) p.toList) = false →
        (["api", "realtime", "live"].any fun p => containsSub (pyLower url) p.toList) = false →
        get_ttl_for_url url = 3600)
    ∧ get_ttl_for_url "https://cdn.example.com/x" = 86400
    ∧ get_ttl_for_url "https://api.example.com/live" = 300
    ∧ get_ttl_for_url "https://example.com/page" = 3600 := by
  refine ⟨?_, ?_, ?_, by decide, by decide, by decide⟩
  · intro h1
    simp only [get_ttl_for_url]
    rw [h1]
    rfl
  · intro h1 h2
    simp only [get_ttl_for_url]
    rw [h1, h2]
    rfl
  · intro h1 h2
    simp only [get_ttl_for_url]
    rw [h1, h2]
    rfl

/-- Witness for C4 at concrete inputs, including a mixed-case URL that
carries both a static and a realtime signal (static priority). -/
theorem get_ttl_for_url_spec_witness :
    get_ttl_for_url "HTTPS://CDN.example.com/api/LIVE" = 86400 :=
  (get_ttl_for_url_spec "HTTPS://CDN.example.com/api/LIVE").1 (by decide)

/-- Claim C5: generate_cache_key is a deterministic pure function of
(url, headers): supplying the same header name/value pairs in a different
insertion order (a permutation of the pair list) yields the same key. -/
theorem generate_cache_key_perm (url : String) (h1 h2 : List (String × String))
    (hp : h1.Perm h2) :
    generate_cache_key url h1 = generate_cache_key url h2 := by
  have hsort : sortHeaders h1 = sortHeaders h2 :=
    List.eq_of_perm_of_sorted
      ((List.perm_insertionSort pairLe h1).trans
        (hp.trans (List.perm_insertionSort pairLe h2).symm))
      (List.sorted_insertionSort pairLe h1)
      (List.sorted_insertionSort pairLe h2)
  unfold generate_cache_key
  rw [hsort]

/-- Witness for C5: two insertion orders of the same header set give the
same key. -/
theorem generate_cache_key_perm_witness :
    generate_cache_key "https://example.com"
        [("User-Agent", "curl"), ("Accept", "text/html")]
      = generate_cache_key "https://example.com"
        [("Accept", "text/html"), ("User-Agent", "curl")] :=
  generate_cache_key_perm "https://example.com" _ _ (by decide)

/-- Claim C9: clean_metadata is idempotent - cleaning an already cleaned
metadata dict with the same selector argument and match count changes
nothing. -/
theorem clean_metadata_idempotent (m : Md) (s : Option String) (n : Option Nat) :
    clean_metadata (clean_metadata m s n) s n = clean_metadata m s n := by
  by_cases ha : m.attempts.getD 1 > 1 <;>
    by_cases hr : m.retries.getD 0 > 0 <;>
      by_cases hc : m.from_cache.getD false <;>
        by_cases hp : m.proxy_used.getD false <;>
          simp [clean_metadata, ha, hr, hc, hp]

theorem scrapeRetryLoopGo_ok (res : Nat → Except PyErr ScrapeResult) (rd : ℚ)
    (m k : Nat) (r : ScrapeResult) (err : Nat → PyErr)
    (hfail : ∀ j, j < k → res j = .error (err j))
    (hok : res k = .ok r) (hk : k ≤ m) :
    ∀ d attempt, attempt + d = k →
      scrapeRetryLoopGo res rd m attempt (m + 1 - attempt) =
        .ok (withRetryMeta r (k + 1) k, (List.range' attempt d).map fun j => rd * 2 ^ j) := by
  intro d
  induction d with
  | zero =>
    intro attempt h
    have ha : attempt = k := by omega
    subst ha
    simp [scrapeRetryLoopGo, hok]
  | succ d ihd =>
    intro attempt h
    have hlt : attempt < k := by omega
    rw [(by omega : m + 1 - attempt = (m - attempt) + 1), scrapeRetryLoopGo]
    simp only [hfail attempt hlt]
    rw [if_neg (show ¬ attempt + 1 > m by omega)]
    rw [(by omega : m - attempt = m + 1 - (attempt + 1))]
    rw [ihd (attempt + 1) (by omega)]
    simp [List.range'_succ, Nat.add_sub_cancel]

theorem scrapeRetryLoopGo_fail (res : Nat → Except PyErr ScrapeResult) (rd : ℚ)
    (m : Nat) (err : Nat → PyErr)
    (hfail : ∀ j, j < m + 1 → res j = .error (err j)) :
    ∀ d attempt, attempt + d + 1 = m + 1 →
      scrapeRetryLoopGo res rd m attempt (m + 1 - attempt) = .error (err m, m + 1) := by
  intro d
  induction d with
  | zero =>
    intro attempt h
    have ha : attempt = m := by omega
    subst ha
    rw [scrapeRetryLoopGo]
    simp only [hfail attempt (by omega)]
    rw [if_pos (show attempt + 1 > attempt by omega)]
  | succ d ihd =>
    intro attempt h
    rw [(by omega : m + 1 - attempt = (m - attempt) + 1), scrapeRetryLoopGo]
    simp only [hfail attempt (by omega)]
    rw [if_neg (show ¬ attempt + 1 > m by omega)]
    rw [(by omega : m - attempt = m + 1 - (attempt + 1))]
    rw [ihd (attempt + 1) (by omega)]

/-- Claim C3: with max_retries = m, a fetch whose first k attempts fail
retryably and whose (k+1)-th attempt succeeds (k <= m) returns attempts =
k+1 and retries = k, having slept retry_delay * 2 ^ (j-1) before the j-th
retry (the j-th sleep in the returned list is at index j-1); if every
attempt fails retryably the loop re-raises the last error after m+1 total
attempts; and max_retries = 0 means exactly one attempt whose outcome is
decided by the first attempt alone, with no sleep. -/
theorem scrapeRetryLoop_spec (res : Nat → Except PyErr ScrapeResult) (rd : ℚ)
    (m k : Nat) (r : ScrapeResult) (err : Nat → PyErr)
    (hfail : ∀ j, j < k → res j = .error (err j)) :
    (k ≤ m → res k = .ok r →
      scrapeRetryLoop res rd m =
        .ok (withRetryMeta r (k + 1) k, (List.range k).map fun j => rd * 2 ^ j))
    ∧ (k = m + 1 → scrapeRetryLoop res rd m = .error (err m, m + 1))
    ∧ (∀ r0, res 0 = .ok r0 → scrapeRetryLoop res rd 0 = .ok (withRetryMeta r0 1 0, []))
    ∧ (∀ e0, res 0 = .error e0 → scrapeRetryLoop res rd 0 = .error (e0, 1)) := by
  refine ⟨?_, ?_, ?_, ?_⟩
  · intro hk hok
    unfold scrapeRetryLoop
    rw [(by omega : m + 1 = m + 1 - 0)]
    rw [scrapeRetryLoopGo_ok res rd m k r err hfail hok hk k 0 (by omega)]
    rw [List.range_eq_range']
  · intro hk
    unfold scrapeRetryLoop
    rw [(by omega : m + 1 = m + 1 - 0)]
    exact scrapeRetryLoopGo_fail res rd m err (fun j hj => hfail j (by omega)) m 0 (by omega)
  · intro r0 h0
    simp [scrapeRetryLoop, scrapeRetryLoopGo, h0]
  · intro e0 h0
    simp [scrapeRetryLoop, scrapeRetryLoopGo, h0]

/-- Witness for C3: a fetch that fails twice then succeeds under
max_retries = 3 returns attempts = 3 and retries = 2 with the two backoff
sleeps, and the always-failing fetch under max_retries = 2 raises after 3
attempts. -/
theorem scrapeRetryLoop_spec_witness :
    scrapeRetryLoop
        (fun n => if n < 2 then .error ⟨"HTTPError", "boom"⟩
                  else .ok ⟨"https://x", "body", 200, none, {}⟩) 1 3
      = .ok (withRetryMeta ⟨"https://x", "body", 200, none, {}⟩ 3 2,
             (List.range 2).map fun j => (1 : ℚ) * 2 ^ j)
    ∧ scrapeRetryLoop (fun _ => .error ⟨"HTTPError", "boom"⟩) 1 2
      = .error (⟨"HTTPError", "boom"⟩, 3) := by
  constructor
  · exact (scrapeRetryLoop_spec
      (fun n => if n < 2 then .error ⟨"HTTPError", "boom"⟩
                else .ok ⟨"https://x", "body", 200, none, {}⟩) 1 3 2
      ⟨"https://x", "body", 200, none, {}⟩ (fun _ => ⟨"HTTPError", "boom"⟩)
      (by decide)).1 (by omega) (by decide)
  · exact (scrapeRetryLoop_spec (fun _ => .error ⟨"HTTPError", "boom"⟩) 1 2 3
      ⟨"https://x", "body", 200, none, {}⟩ (fun _ => ⟨"HTTPError", "boom"⟩)
      (by decide)).2.1 (by omega)

theorem dropToCap_eq_reverse_take (cap : Nat) (l : List RequestMetrics) :
    dropToCap cap l = (l.reverse.take cap).reverse := by
  unfold dropToCap
  rw [List.reverse_take]
  simp

theorem dropToCap_append_left (cap : Nat) (l l2 : List RequestMetrics) :
    dropToCap cap (dropToCap cap l ++ l2) = dropToCap cap (l ++ l2) := by
  rw [dropToCap_eq_reverse_take, dropToCap_eq_reverse_take, dropToCap_eq_reverse_take]
  rw [List.reverse_append, List.reverse_reverse, List.reverse_append]
  rw [List.take_append_eq_append_take, List.take_append_eq_append_take]
  rw [List.take_take]
  rw [inf_eq_left.mpr (Nat.sub_le _ _)]

theorem dropToCap_length (cap : Nat) (l : List RequestMetrics) :
    (dropToCap cap l).length = min l.length cap := by
  simp [dropToCap]
  omega

theorem appendBounded_eq (cap : Nat) (xs : List RequestMetrics) (x : RequestMetrics) :
    appendBounded cap xs x = dropToCap cap (xs ++ [x]) := rfl

theorem foldl_record_recent :
    ∀ (evs : List RequestMetrics) (m : ServerMetrics),
      m.recent_requests.length ≤ 50 →
      (evs.foldl ServerMetrics.record_request m).recent_requests
        = dropToCap 50 (m.recent_requests ++ evs) := by
  intro evs
  induction evs with
  | nil =>
    intro m hm
    simp [dropToCap, Nat.sub_eq_zero_of_le hm]
  | cons e evs ih =>
    intro m hm
    have hb : (m.record_request e).recent_requests.length ≤ 50 := by
      show (appendBounded 50 m.recent_requests e).length ≤ 50
      rw [appendBounded_eq, dropToCap_length]
      omega
    rw [List.foldl_cons, ih _ hb]
    show dropToCap 50 (appendBounded 50 m.recent_requests e ++ evs) = _
    rw [appendBounded_eq, dropToCap_append_left, List.append_assoc]
    rfl

theorem foldl_record_errors :
    ∀ (evs : List RequestMetrics) (m : ServerMetrics),
      m.recent_errors.length ≤ 20 →
      (evs.foldl ServerMetrics.record_request m).recent_errors
        = dropToCap 20 (m.recent_errors ++ evs.filter fun e => !e.success) := by
  intro evs
  induction evs with
  | nil =>
    intro m hm
    simp [dropToCap, Nat.sub_eq_zero_of_le hm]
  | cons e evs ih =>
    intro m hm
    by_cases hs : e.success
    · have hb : (m.record_request e).recent_errors.length ≤ 20 := by
        show (if e.success then m.recent_errors else _).length ≤ 20
        rw [if_pos hs]
        exact hm
      rw [List.foldl_cons, ih _ hb]
      have h1 : (m.record_request e).recent_errors = m.recent_errors := by
        show (if e.success then m.recent_errors else _) = m.recent_errors
        rw [if_pos hs]
      rw [h1, List.filter_cons]
      simp [hs]
    · have hb : (m.record_request e).recent_errors.length ≤ 20 := by
        show (if e.success then m.recent_errors else appendBounded 20 m.recent_errors e).length ≤ 20
        rw [if_neg hs, appendBounded_eq, dropToCap_length]
        omega
      rw [List.foldl_cons, ih _ hb]
      have h1 : (m.record_request e).recent_errors
          = appendBounded 20 m.recent_errors e := by
        show (if e.success then m.recent_errors else appendBounded 20 m.recent_errors e) = _
        rw [if_neg hs]
      rw [h1, appendBounded_eq, dropToCap_append_left, List.append_assoc, List.filter_cons]
      simp [hs]

theorem foldl_record_total :
    ∀ (evs : List RequestMetrics) (m : ServerMetrics),
      (evs.foldl ServerMetrics.record_request m).total_requests
        = m.total_requests + evs.length := by
  intro evs
  induction evs with
  | nil => intro m; simp
  | cons e evs ih =>
    intro m
    rw [List.foldl_cons, ih]
    show m.total_requests + 1 + evs.length = _
    simp [List.length_cons]
    omega

theorem foldl_record_successful :
    ∀ (evs : List RequestMetrics) (m : ServerMetrics),
      (evs.foldl ServerMetrics.record_request m).successful_requests
        = m.successful_requests + evs.countP (fun e => e.success) := by
  intro evs
  induction evs with
  | nil => intro m; simp
  | cons e evs ih =>
    intro m
    rw [List.foldl_cons, ih, List.countP_cons]
    show (if e.success then m.successful_requests + 1 else m.successful_requests) + _ = _
    by_cases hs : e.success <;> simp [hs] <;> omega

theorem foldl_record_failed :
    ∀ (evs : List RequestMetrics) (m : ServerMetrics),
      (evs.foldl ServerMetrics.record_request m).failed_requests
        = m.failed_requests + evs.countP (fun e => !e.success) := by
  intro evs
  induction evs with
  | nil => intro m; simp
  | cons e evs ih =>
    intro m
    rw [List.foldl_cons, ih, List.countP_cons]
    show (if e.success then m.failed_requests else m.failed_requests + 1) + _ = _
    by_cases hs : e.success <;> simp [hs] <;> omega

/-- Claim C8: after any sequence of record_request calls starting from the
initial metrics state, recent_requests is exactly the last 50 recorded
events (so at most 50, oldest evicted first) and recent_errors exactly the
last 20 failed events; total_requests counts every record and equals
successful_requests + failed_requests; and each single record_request step
never decreases any of the four counters. -/
theorem serverMetrics_record_spec (evs : List RequestMetrics) :
    ((evs.foldl ServerMetrics.record_request initialMetrics).recent_requests
        = dropToCap 50 evs)
    ∧ ((evs.foldl ServerMetrics.record_request initialMetrics).recent_requests.length
        = min evs.length 50)
    ∧ ((evs.foldl ServerMetrics.record_request initialMetrics).recent_errors
        = dropToCap 20 (evs.filter fun e => !e.success))
    ∧ ((evs.foldl ServerMetrics.record_request initialMetrics).recent_errors.length ≤ 20)
    ∧ ((evs.foldl ServerMetrics.record_request initialMetrics).total_requests = evs.length)
    ∧ ((evs.foldl ServerMetrics.record_request initialMetrics).total_requests
        = (evs.foldl ServerMetrics.record_request initialMetrics).successful_requests
          + (evs.foldl ServerMetrics.record_request initialMetrics).failed_requests)
    ∧ (∀ (m : ServerMetrics) (ev : RequestMetrics),
        m.total_requests ≤ (m.record_request ev).total_requests
        ∧ m.successful_requests ≤ (m.record_request ev).successful_requests
        ∧ m.failed_requests ≤ (m.record_request ev).failed_requests
        ∧ m.total_retries ≤ (m.record_request ev).total_retries) := by
  have hrec := foldl_record_recent evs initialMetrics (by simp [initialMetrics])
  have herr := foldl_record_errors evs initialMetrics (by simp [initialMetrics])
  have htot := foldl_record_total evs initialMetrics
  have hsucc := foldl_record_successful evs initialMetrics
  have hfail := foldl_record_failed evs initialMetrics
  refine ⟨?_, ?_, ?_, ?_, ?_, ?_, ?_⟩
  · simpa [initialMetrics] using hrec
  · rw [hrec]
    simp [initialMetrics, dropToCap_length]
  · simpa [initialMetrics] using herr
  · rw [herr]
    simp [initialMetrics, dropToCap_length]
  · simpa [initialMetrics] using htot
  · rw [htot, hsucc, hfail]
    simp [initialMetrics]
    rw [List.length_eq_countP_add_countP (fun e => e.success)]
    simp
  · intro m ev
    refine ⟨?_, ?_, ?_, ?_⟩ <;>
      simp only [ServerMetrics.record_request] <;>
        first
          | (split <;> omega)
          | omega

/-- Claim C10: when a per-URL pipeline fails, the recorded metrics event
carries attempts = 1 (the record_request default - the error path passes no
attempt count), so recording it leaves total_retries unchanged; on the
success path the recorded event carries the attempts read from the provider
metadata and recording it adds attempts - 1 to total_retries. -/
theorem failed_record_preserves_total_retries
    (env : String → Except PyErr ScrapeResult) (parse : String → HtmlTree)
    (sel : Option String) (ihb : Bool) (url : String) (m : ServerMetrics) :
    ((scrapeItem env parse sel ihb url).success = false →
      (scrapeEvent env parse sel url).attempts = 1
      ∧ (m.record_request (scrapeEvent env parse sel url)).total_retries
          = m.total_retries)
    ∧ (∀ r, env url = .ok r → (scrapeItem env parse sel ihb url).success = true →
        (m.record_request (scrapeEvent env parse sel url)).total_retries
          = m.total_retries + (r.metadata.attempts.getD 1 - 1)) := by
  rcases henv : env url with e | r
  · constructor
    · intro _
      constructor
      · simp [scrapeEvent, henv]
      · simp [scrapeEvent, henv, ServerMetrics.record_request]
    · intro r hr
      exact absurd hr (by simp)
  · rcases hsel : applySelector parse sel r.content with e2 | p
    · constructor
      · intro _
        constructor
        · simp [scrapeEvent, henv, hsel]
        · simp [scrapeEvent, henv, hsel, ServerMetrics.record_request]
      · intro r2 hr2 hsucc
        have hr3 : r = r2 := by injection hr2
        subst hr3
        simp [scrapeItem, henv, hsel] at hsucc
    · obtain ⟨content, em⟩ := p
      constructor
      · intro hfalse
        simp [scrapeItem, henv, hsel] at hfalse
      · intro r2 hr2 _
        have hr3 : r = r2 := by injection hr2
        subst hr3
        simp only [scrapeEvent, henv, hsel, ServerMetrics.record_request]
        split <;> omega

/-- Witness for C10: a connection failure records attempts = 1 and leaves
total_retries at 0. -/
theorem failed_record_preserves_total_retries_witness :
    (initialMetrics.record_request
        (scrapeEvent (fun _ => .error ⟨"ConnectionError", "refused"⟩)
          sampleParse none "https://down.example.com")).total_retries
      = initialMetrics.total_retries :=
  ((failed_record_preserves_total_retries
      (fun _ => .error ⟨"ConnectionError", "refused"⟩) sampleParse none false
      "https://down.example.com" initialMetrics).1 (by decide)).2

theorem strTruthy_isSome {s : Option String} (h : strTruthy s = true) :
    s.isSome = true := by
  cases s <;> simp_all [strTruthy]

/-- Counterexample to claim C7 as stated: the claim says nested page-level
metadata is kept only when the caller explicitly requested headers, but the
markdown pipeline (tools/service.py lines 243-250) merges page_metadata
into the dict unconditionally and only pops the headers key when
include_headers is false, so the cleaned metadata still carries
page_metadata with include_headers = false. -/
theorem markdown_metadata_step_counterexample :
    ¬ (∀ (raw : Md) (pm : List (String × String)) (s : Option String) (n : Option Nat),
        (markdown_metadata_step raw pm false s n).page_metadata = none) := by
  intro h
  exact absurd (h {} [("title", "T")] none none) (by decide)

/-- Claim C7 (amended): the metadata step of the markdown pipeline keeps
elapsed_ms whenever present, attempts only when attempts > 1, retries only
when retries > 0, from_cache only when true, the selector fields only when
a selector was applied (elements_matched also needing a count), raw headers
only when the caller requested headers and they are present - and keeps
page-level metadata unconditionally (not only when headers were
requested). -/
theorem markdown_metadata_step_rules (raw : Md) (pm : List (String × String))
    (ihb : Bool) (s : Option String) (n : Option Nat) :
    (markdown_metadata_step raw pm ihb s n).elapsed_ms = raw.elapsed_ms
    ∧ ((markdown_metadata_step raw pm ihb s n).attempts.isSome = true
        ↔ raw.attempts.getD 1 > 1)
    ∧ ((markdown_metadata_step raw pm ihb s n).retries.isSome = true
        ↔ raw.retries.getD 0 > 0)
    ∧ ((markdown_metadata_step raw pm ihb s n).from_cache.isSome = true
        ↔ raw.from_cache.getD false = true)
    ∧ ((markdown_metadata_step raw pm ihb s n).css_selector_applied.isSome = true
        ↔ strTruthy s = true)
    ∧ ((markdown_metadata_step raw pm ihb s n).elements_matched.isSome = true
        ↔ strTruthy s = true ∧ n.isSome = true)
    ∧ ((markdown_metadata_step raw pm ihb s n).headers.isSome = true
        ↔ ihb = true ∧ raw.headers.isSome = true)
    ∧ (markdown_metadata_step raw pm ihb s n).page_metadata = some pm := by
  refine ⟨?_, ?_, ?_, ?_, ?_, ?_, ?_, ?_⟩
  · cases ihb <;> rfl
  · cases ihb <;>
      by_cases h : raw.attempts.getD 1 > 1 <;>
        simp [markdown_metadata_step, clean_metadata, h]
  · cases ihb <;>
      by_cases h : raw.retries.getD 0 > 0 <;>
        simp [markdown_metadata_step, clean_metadata, h]
  · cases ihb <;>
      by_cases h : raw.from_cache.getD false <;>
        simp [markdown_metadata_step, clean_metadata, h]
  · cases ihb <;>
      by_cases h : strTruthy s <;>
        first
          | simp [markdown_metadata_step, clean_metadata, h, strTruthy_isSome h]
          | simp [markdown_metadata_step, clean_metadata, h]
  · cases ihb <;>
      by_cases h : strTruthy s <;>
        cases n <;>
          simp [markdown_metadata_step, clean_metadata, h]
  · cases ihb <;> simp [markdown_metadata_step, clean_metadata]
  · cases ihb <;> rfl

/-- Claim C6: on any document, a selector that parses returns the
concatenation of all matched element subtrees in document order together
with the match count; zero matches return ("", 0) rather than failing; and
a syntactically invalid selector fails with the invalid-selector error. -/
theorem filter_html_by_selector_spec (doc : HtmlTree) (css : String) :
    (∀ sels, parseSelector css = some sels →
      filter_html_by_selector doc css
        = .ok (String.intercalate "\n" ((collect sels doc).map render),
               (collect sels doc).length)
      ∧ (collect sels doc = [] → filter_html_by_selector doc css = .ok ("", 0)))
    ∧ (parseSelector css = none →
        filter_html_by_selector doc css
          = .error ("Invalid CSS selector " ++ jsonStr css)) := by
  constructor
  · intro sels hp
    constructor
    · simp only [filter_html_by_selector, hp]
      by_cases he : (collect sels doc).isEmpty
      · have he2 : collect sels doc = [] := by
          simpa [List.isEmpty_iff] using he
        simp [he, he2, String.intercalate]
      · simp [he]
    · intro he
      simp [filter_html_by_selector, hp, he]
  · intro hp
    simp [filter_html_by_selector, hp]

/-- Witness for C6 on a concrete document: the selector "img, video"
matches the img and the nested video in document order with count 2; the
selector ".nonexistent" matches nothing and returns ("", 0); the selector
"??" is syntactically invalid and fails. -/
theorem filter_html_by_selector_spec_witness :
    filter_html_by_selector sampleDoc "img, video"
      = .ok ("<img></img>\n<video></video>", 2)
    ∧ filter_html_by_selector sampleDoc ".nonexistent" = .ok ("", 0)
    ∧ filter_html_by_selector sampleDoc "??"
        = .error ("Invalid CSS selector " ++ jsonStr "??") := by
  refine ⟨?_, ?_, ?_⟩
  · exact ((filter_html_by_selector_spec sampleDoc "img, video").1
      [.tagSel "img", .tagSel "video"] rfl).1.trans (by decide)
  · exact ((filter_html_by_selector_spec sampleDoc ".nonexistent").1
      [.classSel "nonexistent"] rfl).2 rfl
  · exact (filter_html_by_selector_spec sampleDoc "??").2 rfl

theorem filter_success_length_split (l : List ScrapeResultItem) :
    (l.filter fun r => r.success).length + (l.filter fun r => !r.success).length
      = l.length := by
  induction l with
  | nil => rfl
  | cons a t ih =>
    by_cases hs : a.success <;> simp [List.filter_cons, hs] <;> omega

/-- Claim C1: a batch call always returns a complete BatchScrapeResponse:
total equals the number of input URLs, successful counts the items with
success = true, failed counts the rest, total = successful + failed; every
item has data present and error absent exactly when it succeeded, and data
absent with error present when it failed; each position of results depends
only on the URL at that position; and a URL whose provider call raises is
converted into a failed item with error "<ErrorKind>: <message>". -/
theorem batch_scrape_urls_spec (env : String → Except PyErr ScrapeResult)
    (parse : String → HtmlTree) (sel : Option String) (ihb : Bool)
    (urls : List String) (m : ServerMetrics) :
    ((batch_scrape_urls env parse sel ihb urls m).1.total = urls.length)
    ∧ ((batch_scrape_urls env parse sel ihb urls m).1.results.length = urls.length)
    ∧ ((batch_scrape_urls env parse sel ihb urls m).1.successful
        = ((batch_scrape_urls env parse sel ihb urls m).1.results.filter
            fun r => r.success).length)
    ∧ ((batch_scrape_urls env parse sel ihb urls m).1.failed
        = ((batch_scrape_urls env parse sel ihb urls m).1.results.filter
            fun r => !r.success).length)
    ∧ ((batch_scrape_urls env parse sel ihb urls m).1.total
        = (batch_scrape_urls env parse sel ihb urls m).1.successful
          + (batch_scrape_urls env parse sel ihb urls m).1.failed)
    ∧ (∀ i : Nat, (batch_scrape_urls env parse sel ihb urls m).1.results.get? i
        = (urls.get? i).map (scrapeItem env parse sel ihb))
    ∧ (∀ r ∈ (batch_scrape_urls env parse sel ihb urls m).1.results,
        (r.success = true → r.data.isSome = true ∧ r.error = none)
        ∧ (r.success = false → r.data = none ∧ r.error.isSome = true))
    ∧ (∀ url e, env url = .error e →
        scrapeItem env parse sel ihb url
          = ⟨url, false, none, some (e.kind ++ ": " ++ e.msg)⟩) := by
  refine ⟨?_, ?_, ?_, ?_, ?_, ?_, ?_, ?_⟩
  · simp [batch_scrape_urls]
  · simp [batch_scrape_urls]
  · simp [batch_scrape_urls, List.countP_eq_length_filter]
  · have h := filter_success_length_split (urls.map (scrapeItem env parse sel ihb))
    simp only [batch_scrape_urls, List.countP_eq_length_filter]
    omega
  · have h : (urls.map (scrapeItem env parse sel ihb)).countP (fun r => r.success)
        ≤ (urls.map (scrapeItem env parse sel ihb)).length :=
      List.countP_le_length _
    simp only [batch_scrape_urls]
    omega
  · intro i
    simp [batch_scrape_urls, List.get?_map]
  · intro r hr
    simp only [batch_scrape_urls] at hr
    obtain ⟨u, hu, rfl⟩ := List.mem_map.1 hr
    rcases henv : env u with e | res
    · simp [scrapeItem, henv]
    · rcases hsel : applySelector parse sel res.content with e2 | p
      · simp [scrapeItem, henv, hsel]
      · obtain ⟨c, em⟩ := p
        simp [scrapeItem, henv, hsel]
  · intro url e he
    simp [scrapeItem, he, PyErr.format]

/-- Witness for C1 on a concrete batch of two URLs where exactly the second
fails: total 2, successful 1, failed 1, and the failing item carries the
formatted error. -/
theorem batch_scrape_urls_spec_witness :
    (batch_scrape_urls sampleEnv sampleParse none false
        ["https://a", "https://b"] initialMetrics).1.total = 2
    ∧ (batch_scrape_urls sampleEnv sampleParse none false
        ["https://a", "https://b"] initialMetrics).1.successful = 1
    ∧ (batch_scrape_urls sampleEnv sampleParse none false
        ["https://a", "https://b"] initialMetrics).1.failed = 1
    ∧ scrapeItem sampleEnv sampleParse none false "https://b"
        = ⟨"https://b", false, none, some "ConnectionError: boom"⟩ := by
  have h := batch_scrape_urls_spec sampleEnv sampleParse none false
    ["https://a", "https://b"] initialMetrics
  refine ⟨h.1, by decide, by decide, ?_⟩
  exact h.2.2.2.2.2.2.2 "https://b" ⟨"ConnectionError", "boom"⟩ (by decide)

theorem fillSlots_eq (run : String → ScrapeResultItem) (tasks : List String) :
    ∀ (ord : List Nat) (acc : Nat → Option ScrapeResultItem) (j : Nat),
      fillSlots run tasks ord acc j
        = if j ∈ ord then (tasks.get? j).map run else acc j := by
  intro ord
  induction ord with
  | nil =>
    intro acc j
    simp [fillSlots]
  | cons i rest ihr =>
    intro acc j
    simp only [fillSlots]
    rw [ihr]
    by_cases hr : j ∈ rest
    · simp [hr, List.mem_cons]
    · by_cases hi : j = i
      · subst hi
        simp [hr, List.mem_cons]
      · simp [hr, hi, List.mem_cons]

theorem scrapeItem_url (env : String → Except PyErr ScrapeResult)
    (parse : String → HtmlTree) (sel : Option String) (ihb : Bool) (u : String) :
    (scrapeItem env parse sel ihb u).url = u := by
  rcases henv : env u with e | res
  · simp [scrapeItem, henv]
  · rcases hsel : applySelector parse sel res.content with e2 | p
    · simp [scrapeItem, henv, hsel]
    · obtain ⟨c, em⟩ := p
      simp [scrapeItem, henv, hsel]

/-- Claim C2: results are positionally aligned with the input URL list:
whatever order the per-URL tasks complete in (any permutation of the task
indices fed to the slot-filling model of asyncio.gather), slot i holds the
result of urls[i], and results[i].url = urls[i] in the returned batch. -/
theorem batch_results_aligned (env : String → Except PyErr ScrapeResult)
    (parse : String → HtmlTree) (sel : Option String) (ihb : Bool)
    (urls : List String) (m : ServerMetrics) (order : List Nat)
    (hperm : order.Perm (List.range urls.length)) (i : Nat) (hi : i < urls.length) :
    fillSlots (scrapeItem env parse sel ihb) urls order (fun _ => none) i
      = some (scrapeItem env parse sel ihb (urls.get ⟨i, hi⟩))
    ∧ ((batch_scrape_urls env parse sel ihb urls m).1.results.get? i).map
        (fun r => r.url) = some (urls.get ⟨i, hi⟩) := by
  constructor
  · rw [fillSlots_eq]
    have hmem : i ∈ order := hperm.mem_iff.2 (List.mem_range.2 hi)
    rw [if_pos hmem, List.get?_eq_get hi]
    rfl
  · have h6 : (batch_scrape_urls env parse sel ihb urls m).1.results.get? i
        = (urls.get? i).map (scrapeItem env parse sel ihb) := by
      simp [batch_scrape_urls, List.get?_map]
    rw [h6, List.get?_eq_get hi]
    simp [scrapeItem_url]

/-- Witness for C2: with two URLs and the reversed completion order [1, 0],
slot 0 still holds the result of the first URL, whose url field is the
first input. -/
theorem batch_results_aligned_witness :
    fillSlots (scrapeItem sampleEnv sampleParse none false)
        ["https://a", "https://b"] [1, 0] (fun _ => none) 0
      = some (scrapeItem sampleEnv sampleParse none false "https://a")
    ∧ ((batch_scrape_urls sampleEnv sampleParse none false
          ["https://a", "https://b"] initialMetrics).1.results.get? 0).map
        (fun r => r.url) = some "https://a" :=
  batch_results_aligned sampleEnv sampleParse none false
    ["https://a", "https://b"] initialMetrics [1, 0] (by decide) 0 (by decide)
